import Mathlib

/-!
Verification of `src/components/Frame.tsx` (basenuts-pistachiowatch).

The file shallowly embeds the view logic of the frame component:

* `DateTime` models a JS `Date` through its UTC accessors
  (`getUTCFullYear`, `getUTCMonth`, `getUTCDate`, `getUTCHours`, ...);
* `calculateDailyAllowance` is the allowance calculator from lines 58-69,
  with the ambient clock and the configuration constants `DAILY_ALLOWANCE`
  and `ALLOWANCE_RESET_HOUR` made explicit parameters;
* `handleSearch` embeds the search handler (lines 71-84) and
  `loadInitialData` the refresh-cycle body (lines 86-105); network results
  are supplied by a `FetchEnv` so that fetch outcomes are explicit, and each
  function also returns the list of fetch calls it performed;
* `switchView` embeds the three view-selection buttons (lines 217-236).
-/

/-- A JS `Date` seen through its UTC accessors: `year` is `getUTCFullYear()`,
`month` is `getUTCMonth()` (0-11), `day` is `getUTCDate()` (1-31), `hour` is
`getUTCHours()` (0-23), plus minutes, seconds and milliseconds. -/
structure DateTime where
  year : Int
  month : Nat
  day : Nat
  hour : Nat
  minute : Nat
  second : Nat
  ms : Nat
deriving DecidableEq

/-- `d.setUTCHours(h, 0, 0, 0)` for an in-range hour `h` (0-23): the
time-of-day fields are replaced and the UTC calendar date is unchanged.
(JS would roll the date for `h ≥ 24`; every use in the component passes
`ALLOWANCE_RESET_HOUR`, constrained to 0-23, so only the in-range case is
modelled and theorems carry that bound as a hypothesis.) -/
def setUTCHours (d : DateTime) (h : Nat) : DateTime :=
  { d with hour := h, minute := 0, second := 0, ms := 0 }

/-- Two `DateTime`s lie on the same UTC calendar date. -/
def sameUTCDate (a b : DateTime) : Prop :=
  a.day = b.day ∧ a.month = b.month ∧ a.year = b.year

instance (a b : DateTime) : Decidable (sameUTCDate a b) := by
  unfold sameUTCDate; infer_instance

/-- Lines 58-69 of `Frame.tsx`:

```
function calculateDailyAllowance(lastUpdated: Date): number {
  const now = new Date();
  const lastReset = new Date(lastUpdated);
  lastReset.setUTCHours(ALLOWANCE_RESET_HOUR, 0, 0, 0);
  if (now.getUTCDate() !== lastReset.getUTCDate() ||
      now.getUTCMonth() !== lastReset.getUTCMonth() ||
      now.getUTCFullYear() !== lastReset.getUTCFullYear()) \x7b
    return DAILY_ALLOWANCE;
  \x7d
  return Math.max(DAILY_ALLOWANCE - (now.getUTCHours() - ALLOWANCE_RESET_HOUR) * 1, 0);
}
```

`DAILY_ALLOWANCE`, `ALLOWANCE_RESET_HOUR` and the ambient clock `now` are
explicit parameters (`dailyAllowance`, `resetHour`, `now`). -/
def calculateDailyAllowance (dailyAllowance : Int) (resetHour : Nat)
    (now lastUpdated : DateTime) : Int :=
  let lastReset := setUTCHours lastUpdated resetHour
  if now.day ≠ lastReset.day ∨ now.month ≠ lastReset.month ∨
      now.year ≠ lastReset.year then
    dailyAllowance
  else
    max (dailyAllowance - ((now.hour : Int) - (resetHour : Int)) * 1) 0

/-- `NutStats` (lines 25-32): one user's counters as returned by
`/api/nuts/stats`. -/
structure NutStats where
  fid : Int
  username : String
  sent : Int
  received : Int
  failedAttempts : Int
  lastUpdated : DateTime
deriving DecidableEq

/-- `LeaderboardEntry` (lines 34-38). -/
structure LeaderboardEntry where
  fid : Int
  username : String
  totalPoints : Int
deriving DecidableEq

/-- `enum ViewState` (lines 40-44). -/
inductive ViewState where
  | STATS
  | LEADERBOARD
  | SEARCH
deriving DecidableEq

/-- The component state held in `useState` hooks (lines 110-115):
`currentView`, `userStats`, `leaderboard`, `searchFid`, `searchResults`,
`error`. JS `null` is `none` and the empty string is the initial error. -/
structure FrameState where
  currentView : ViewState
  userStats : Option NutStats
  leaderboard : List LeaderboardEntry
  searchFid : String
  searchResults : Option NutStats
  error : String
deriving DecidableEq

/-- The initial values of the `useState` hooks (lines 110-115). -/
def initialFrameState : FrameState :=
  { currentView := ViewState.STATS, userStats := none, leaderboard := [],
    searchFid := "", searchResults := none, error := "" }

/-- The slice of the host context the refresh cycle reads (line 89):
`context.client.added` and `context.actor?.fid`. -/
structure FrameContext where
  clientAdded : Bool
  actorFid : Option Int
deriving DecidableEq

/-- A network call performed by a handler: `fetchNutStats(fid)` or
`fetchLeaderboard()`. -/
inductive FetchCall where
  | stats (fid : Int)
  | leaderboard
deriving DecidableEq

/-- Outcomes of the two remote endpoints for one cycle. `fetchNutStats`
(lines 46-50) rejects with `Error('Failed to fetch stats')` on a non-ok
response and `fetchLeaderboard` (lines 52-56) with
`Error('Failed to fetch leaderboard')`; a rejection is `.error` carrying the
error's message. -/
structure FetchEnv where
  statsResult : Int → Except String NutStats
  leaderboardResult : Except String (List LeaderboardEntry)

/-- The guard of line 89, `context?.client.added && context.actor?.fid`, as
the fid it authorizes: `some fid` iff the optional context is present, the
client has added the frame, and a truthy (non-zero) actor fid is present. -/
def statsGate : Option FrameContext → Option Int
  | none => none
  | some c =>
    match c.actorFid with
    | none => none
    | some fid => if c.clientAdded ∧ fid ≠ 0 then some fid else none

/-- Lines 87-99 of `Frame.tsx`:

```
const loadInitialData = async () => {
  try {
    if (context?.client.added && context.actor?.fid) \x7b
      const stats = await fetchNutStats(context.actor.fid);
      setUserStats(stats);
    \x7d
    const leaderboardData = await fetchLeaderboard();
    setLeaderboard(leaderboardData);
  } catch (err) {
    setError(err instanceof Error ? err.message : 'Failed to load data');
  }
};
```

Both awaits sit in one `try`: a rejected stats fetch jumps to `catch` before
`fetchLeaderboard()` is called. State setters already executed survive the
jump. The returned list records the fetch calls performed, in order. -/
def loadInitialData (ctx : Option FrameContext) (env : FetchEnv)
    (s : FrameState) : FrameState × List FetchCall :=
  match statsGate ctx with
  | some fid =>
    match env.statsResult fid with
    | .error msg => ({ s with error := msg }, [FetchCall.stats fid])
    | .ok stats =>
      let s1 := { s with userStats := some stats }
      match env.leaderboardResult with
      | .error msg =>
        ({ s1 with error := msg }, [FetchCall.stats fid, FetchCall.leaderboard])
      | .ok lb =>
        ({ s1 with leaderboard := lb },
          [FetchCall.stats fid, FetchCall.leaderboard])
  | none =>
    match env.leaderboardResult with
    | .error msg => ({ s with error := msg }, [FetchCall.leaderboard])
    | .ok lb => ({ s with leaderboard := lb }, [FetchCall.leaderboard])

/-- JS whitespace skipped by `parseInt` (the common cases). -/
def isJsSpace (c : Char) : Bool :=
  c == ' ' || c == '\t' || c == '\n' || c == '\r'

/-- Value of a string of decimal digits, most significant first. -/
def digitsToNat (ds : List Char) : Nat :=
  ds.foldl (fun acc c => 10 * acc + (c.toNat - '0'.toNat)) 0

/-- `parseInt(s)` (line 74), radix-10 behaviour: skip leading whitespace,
consume an optional `+`/`-` sign, then the longest run of leading decimal
digits; `NaN` (here `none`) when that run is empty. (The rarely-used `0x`
hex path of the JS builtin and float rounding above 2^53 are outside this
model.) -/
def parseIntJS (s : String) : Option Int :=
  let cs := s.data.dropWhile isJsSpace
  let sign : Int := if cs.head? = some '-' then -1 else 1
  let cs2 := if cs.head? = some '-' ∨ cs.head? = some '+' then cs.tail else cs
  let ds := cs2.takeWhile Char.isDigit
  if ds = [] then none else some (sign * digitsToNat ds)

/-- Lines 71-84 of `Frame.tsx`:

```
const handleSearch = async () => {
  try {
    if (!searchFid) return;
    const fid = parseInt(searchFid);
    if (isNaN(fid)) throw new Error('Invalid FID');
    const results = await fetchNutStats(fid);
    setSearchResults(results);
    setError('');
  } catch (err) {
    setError(err instanceof Error ? err.message : 'Failed to search');
    setSearchResults(null);
  }
};
```

`!searchFid` is true exactly for the empty string; the thrown
`Error('Invalid FID')` is caught below and its message stored. The returned
list records the fetch calls performed. -/
def handleSearch (env : FetchEnv) (s : FrameState) :
    FrameState × List FetchCall :=
  if s.searchFid = "" then (s, [])
  else
    match parseIntJS s.searchFid with
    | none => ({ s with error := "Invalid FID", searchResults := none }, [])
    | some fid =>
      match env.statsResult fid with
      | .ok results =>
        ({ s with searchResults := some results, error := "" },
          [FetchCall.stats fid])
      | .error msg =>
        ({ s with error := msg, searchResults := none }, [FetchCall.stats fid])

/-- A view-selection button (lines 217-236): `onClick` only calls
`setCurrentView(v)`; no fetch is performed. -/
def switchView (v : ViewState) (s : FrameState) : FrameState × List FetchCall :=
  ({ s with currentView := v }, [])

/-- Result of pressing a sequence of view-selection buttons in order. -/
def switchViews (vs : List ViewState) (s : FrameState) : FrameState :=
  vs.foldl (fun st v => (switchView v st).1) s

/-- A concrete stats record for witnesses. -/
def sampleStats : NutStats :=
  { fid := 1, username := "alice", sent := 2, received := 3,
    failedAttempts := 0, lastUpdated := ⟨2025, 1, 1, 0, 0, 0, 0⟩ }

/-- Environment where the stats endpoint rejects (with the message of
`fetchNutStats`, line 48) and the leaderboard endpoint succeeds. -/
def envStatsDown : FetchEnv :=
  { statsResult := fun _ => Except.error "Failed to fetch stats",
    leaderboardResult := Except.ok [] }

/-- Environment where both endpoints succeed. -/
def envAllOk : FetchEnv :=
  { statsResult := fun _ => Except.ok sampleStats,
    leaderboardResult := Except.ok [] }

/-- A context with the frame added and a signed-in fid. -/
def ctxUser : FrameContext := { clientAdded := true, actorFid := some 1 }

/-- `parseInt('')` is `NaN`. -/
theorem parseIntJS_empty : parseIntJS "" = none := rfl

/-- Whenever the search input parses, `handleSearch` performs exactly one
fetch, `fetchNutStats(fid)`. -/
theorem handleSearch_calls (env : FetchEnv) (s : FrameState) (fid : Int)
    (hp : parseIntJS s.searchFid = some fid) :
    (handleSearch env s).2 = [FetchCall.stats fid] := by
  have hne : s.searchFid ≠ "" := by
    intro he
    rw [he, parseIntJS_empty] at hp
    exact Option.noConfusion hp
  cases hs : env.statsResult fid with
  | ok stats => simp [handleSearch, hne, hp, hs]
  | error msg => simp [handleSearch, hne, hp, hs]

/-- A decimal digit is not `parseInt` whitespace. -/
theorem digit_not_space {c : Char} (h : c.isDigit = true) :
    isJsSpace c = false := by
  cases hc : isJsSpace c
  · rfl
  · exfalso
    unfold isJsSpace at hc
    simp only [Bool.or_eq_true, beq_iff_eq] at hc
    rcases hc with ((h1 | h1) | h1) | h1 <;> subst h1 <;>
      exact absurd h (by decide)

/-- A decimal digit is not the minus sign. -/
theorem digit_ne_dash {c : Char} (h : c.isDigit = true) : c ≠ '-' := by
  intro h1; subst h1; exact absurd h (by decide)

/-- A decimal digit is not the plus sign. -/
theorem digit_ne_plus {c : Char} (h : c.isDigit = true) : c ≠ '+' := by
  intro h1; subst h1; exact absurd h (by decide)

/-- Taking leading digits of a digit run followed by a non-digit yields
exactly the run. -/
theorem takeWhile_digits_of_append (ds rest : List Char)
    (hds : ∀ c ∈ ds, c.isDigit = true)
    (hrest : ∀ c, rest.head? = some c → c.isDigit = false) :
    (ds ++ rest).takeWhile Char.isDigit = ds := by
  induction ds with
  | nil =>
    cases rest with
    | nil => rfl
    | cons c tl =>
      have hc : c.isDigit = false := hrest c rfl
      simp [List.takeWhile_cons, hc]
  | cons d tl ih =>
    have hd : d.isDigit = true := hds d (List.mem_cons_self d tl)
    simp only [List.cons_append, List.takeWhile_cons, hd, if_true]
    rw [ih (fun c hc => hds c (List.mem_cons_of_mem d hc))]

/-- `parseInt` on a string that starts with a non-empty run of decimal
digits followed by a non-digit returns the value of that run. -/
theorem parseIntJS_digits_leading (s : String) (ds rest : List Char)
    (hdata : s.data = ds ++ rest) (hne : ds ≠ [])
    (hds : ∀ c ∈ ds, c.isDigit = true)
    (hrest : ∀ c, rest.head? = some c → c.isDigit = false) :
    parseIntJS s = some ((digitsToNat ds : Nat) : Int) := by
  cases ds with
  | nil => exact absurd rfl hne
  | cons d tl =>
    have hd : d.isDigit = true := hds d (List.mem_cons_self d tl)
    have hsp : ¬ (isJsSpace d = true) := by
      rw [digit_not_space hd]; simp
    have hdash : d ≠ '-' := digit_ne_dash hd
    have hplus : d ≠ '+' := digit_ne_plus hd
    have hdrop : s.data.dropWhile isJsSpace = d :: (tl ++ rest) := by
      rw [hdata, List.cons_append, List.dropWhile_cons_of_neg hsp]
    have htake : (d :: (tl ++ rest)).takeWhile Char.isDigit = d :: tl := by
      rw [← List.cons_append]
      exact takeWhile_digits_of_append (d :: tl) rest hds hrest
    have hc1 : ¬ ((d :: (tl ++ rest)).head? = some '-') := by
      simp [hdash]
    have hc2 : ¬ ((d :: (tl ++ rest)).head? = some '-' ∨
        (d :: (tl ++ rest)).head? = some '+') := by
      simp [hdash, hplus]
    have hts : d :: tl ≠ ([] : List Char) := by simp
    simp only [parseIntJS, hdrop, if_neg hc1, if_neg hc2, htake, if_neg hts,
      one_mul]

/-- C1: for every pair of timestamps, every `dailyAllowance` and every
`resetHour` in 0-23, `calculateDailyAllowance` returns exactly
`dailyAllowance` when `lastUpdated`'s UTC calendar date differs from `now`'s,
and otherwise `max (dailyAllowance - (now.hour - resetHour)) 0`, decaying by
exactly 1 per hour past `resetHour` and clamped at 0. -/
theorem C1_allowance_cases (dailyAllowance : Int) (resetHour : Nat)
    (now lastUpdated : DateTime) (_hr : resetHour ≤ 23) :
    calculateDailyAllowance dailyAllowance resetHour now lastUpdated =
      if sameUTCDate now lastUpdated then
        max (dailyAllowance - ((now.hour : Int) - (resetHour : Int))) 0
      else dailyAllowance := by
  unfold calculateDailyAllowance setUTCHours sameUTCDate
  simp only [mul_one]
  by_cases h1 : now.day = lastUpdated.day <;>
    by_cases h2 : now.month = lastUpdated.month <;>
      by_cases h3 : now.year = lastUpdated.year <;>
        simp [h1, h2, h3]

theorem C1_allowance_cases_witness :
    (8 : Nat) ≤ 23 ∧
      calculateDailyAllowance 10 8 ⟨2025, 1, 1, 12, 0, 0, 0⟩
        ⟨2025, 1, 1, 9, 30, 0, 0⟩ =
        if sameUTCDate ⟨2025, 1, 1, 12, 0, 0, 0⟩ ⟨2025, 1, 1, 9, 30, 0, 0⟩ then
          max ((10 : Int) - ((12 : Int) - (8 : Int))) 0
        else 10 :=
  ⟨by decide,
    C1_allowance_cases 10 8 ⟨2025, 1, 1, 12, 0, 0, 0⟩ ⟨2025, 1, 1, 9, 30, 0, 0⟩
      (by decide)⟩

/-- C2 counterexample: the claim says the result never exceeds
`dailyAllowance`, but with `dailyAllowance = 10`, `resetHour = 8` and
`now.hour = 3` on the same UTC date as `lastUpdated`, the code computes
`max (10 - (3 - 8)) 0 = 15 > 10`: the clamp only prevents negative values. -/
theorem C2_counterexample :
    calculateDailyAllowance 10 8 ⟨2025, 1, 1, 3, 0, 0, 0⟩
        ⟨2025, 1, 1, 0, 0, 0, 0⟩ = 15 ∧ (15 : Int) > 10 := by
  constructor
  · rfl
  · decide

/-- C2 amended: for every input with `0 ≤ dailyAllowance` and `resetHour` in
0-23 the result is never below 0, and it never exceeds `dailyAllowance`
except when `now`'s UTC hour is below `resetHour` on the same UTC date as
`lastUpdated`, where it equals `dailyAllowance + (resetHour - now.hour)`,
strictly above `dailyAllowance`. -/
theorem C2_amended_bounds (dailyAllowance : Int) (resetHour : Nat)
    (now lastUpdated : DateTime) (hd : 0 ≤ dailyAllowance)
    (hr : resetHour ≤ 23) :
    0 ≤ calculateDailyAllowance dailyAllowance resetHour now lastUpdated ∧
    (¬ sameUTCDate now lastUpdated →
      calculateDailyAllowance dailyAllowance resetHour now lastUpdated =
        dailyAllowance) ∧
    (sameUTCDate now lastUpdated → resetHour ≤ now.hour →
      calculateDailyAllowance dailyAllowance resetHour now lastUpdated ≤
        dailyAllowance) ∧
    (sameUTCDate now lastUpdated → now.hour < resetHour →
      calculateDailyAllowance dailyAllowance resetHour now lastUpdated =
        dailyAllowance + ((resetHour : Int) - (now.hour : Int))) := by
  rw [C1_allowance_cases dailyAllowance resetHour now lastUpdated hr]
  refine ⟨?_, fun hns => ?_, fun hsame hle => ?_, fun hsame hlt => ?_⟩
  · split
    · exact le_max_right _ _
    · exact hd
  · rw [if_neg hns]
  · rw [if_pos hsame]
    have hcast : ((resetHour : Int)) ≤ (now.hour : Int) := by exact_mod_cast hle
    exact max_le (by omega) hd
  · rw [if_pos hsame]
    have hcast : ((now.hour : Int)) < (resetHour : Int) := by exact_mod_cast hlt
    rw [max_eq_left (by omega)]
    omega

theorem C2_amended_bounds_witness :
    (0 : Int) ≤ 10 ∧ (8 : Nat) ≤ 23 ∧
      0 ≤ calculateDailyAllowance 10 8 ⟨2025, 1, 1, 3, 0, 0, 0⟩
        ⟨2025, 1, 1, 0, 0, 0, 0⟩ :=
  ⟨by decide, by decide,
    (C2_amended_bounds 10 8 ⟨2025, 1, 1, 3, 0, 0, 0⟩ ⟨2025, 1, 1, 0, 0, 0, 0⟩
      (by decide) (by decide)).1⟩

/-- C3 counterexample: with an authenticated, added context and a failing
stats endpoint, the refresh cycle performs no leaderboard fetch at all — the
single `try` aborts to `catch` before `fetchLeaderboard()` — refuting the
claim that the leaderboard fetch is unconditional and unblocked by a stats
failure. -/
theorem C3_counterexample :
    FetchCall.leaderboard ∉
      (loadInitialData (some ctxUser) envStatsDown initialFrameState).2 := by
  decide

/-- C3 amended: the leaderboard fetch runs only when the stats fetch is
skipped or succeeds. A stats-fetch failure ends the cycle before the
leaderboard fetch, sets the shared error to the failure message and leaves
both data slices unchanged; when the stats fetch succeeds its result is
applied regardless of the leaderboard outcome, whose failure only sets the
shared error; when no stats fetch is attempted the leaderboard is always
fetched. -/
theorem C3_amended_fetch_dependence (ctx : Option FrameContext)
    (env : FetchEnv) (s : FrameState) :
    (∀ fid msg, statsGate ctx = some fid →
      env.statsResult fid = Except.error msg →
      (loadInitialData ctx env s).2 = [FetchCall.stats fid] ∧
      (loadInitialData ctx env s).1.error = msg ∧
      (loadInitialData ctx env s).1.userStats = s.userStats ∧
      (loadInitialData ctx env s).1.leaderboard = s.leaderboard) ∧
    (∀ fid stats, statsGate ctx = some fid →
      env.statsResult fid = Except.ok stats →
      (loadInitialData ctx env s).2 =
        [FetchCall.stats fid, FetchCall.leaderboard] ∧
      (loadInitialData ctx env s).1.userStats = some stats ∧
      (∀ msg, env.leaderboardResult = Except.error msg →
        (loadInitialData ctx env s).1.error = msg)) ∧
    (statsGate ctx = none →
      (loadInitialData ctx env s).2 = [FetchCall.leaderboard]) := by
  cases hg : statsGate ctx with
  | none =>
    cases hl : env.leaderboardResult with
    | error msg => simp [loadInitialData, hg, hl]
    | ok lb => simp [loadInitialData, hg, hl]
  | some fid =>
    cases hs : env.statsResult fid with
    | error msg =>
      refine ⟨?_, ?_, ?_⟩
      · intro fid' msg' hfid hmsg
        injection hfid with hfid
        subst hfid
        rw [hs] at hmsg
        injection hmsg with hmsg
        subst hmsg
        simp [loadInitialData, hg, hs]
      · intro fid' stats hfid hok
        injection hfid with hfid
        subst hfid
        rw [hs] at hok
        exact absurd hok (by simp)
      · intro h
        exact absurd h (by simp)
    | ok stats =>
      refine ⟨?_, ?_, ?_⟩
      · intro fid' msg' hfid hmsg
        injection hfid with hfid
        subst hfid
        rw [hs] at hmsg
        exact absurd hmsg (by simp)
      · intro fid' stats' hfid hok
        injection hfid with hfid
        subst hfid
        rw [hs] at hok
        injection hok with hok
        subst hok
        cases hl : env.leaderboardResult with
        | error msg => simp [loadInitialData, hg, hs, hl]
        | ok lb => simp [loadInitialData, hg, hs, hl]
      · intro h
        exact absurd h (by simp)

theorem C3_amended_fetch_dependence_witness :
    (loadInitialData (some ctxUser) envStatsDown initialFrameState).2 =
      [FetchCall.stats 1] :=
  ((C3_amended_fetch_dependence (some ctxUser) envStatsDown
      initialFrameState).1 1 "Failed to fetch stats" (by decide) rfl).1

/-- C4 counterexample: a refresh cycle in which both fetches succeed (the
stats result is applied) leaves a previously displayed error message in
place, refuting the claim that every successful operation clears or replaces
the displayed error. -/
theorem C4_counterexample :
    ((loadInitialData (some ctxUser) envAllOk
        { initialFrameState with error := "previous error" }).1).userStats =
      some sampleStats ∧
    ((loadInitialData (some ctxUser) envAllOk
        { initialFrameState with error := "previous error" }).1).error =
      "previous error" ∧
    "previous error" ≠ "" := by
  refine ⟨rfl, rfl, by decide⟩

/-- C4 amended: a successful search clears the displayed error, but a
refresh cycle whose fetches all succeed leaves the error slice exactly as it
was; an error message therefore persists until a new error or a successful
search replaces it. -/
theorem C4_amended_error_persistence (ctx : Option FrameContext)
    (env : FetchEnv) (s t : FrameState) :
    (∀ fid stats, parseIntJS t.searchFid = some fid →
      env.statsResult fid = Except.ok stats →
      ((handleSearch env t).1).error = "") ∧
    ((∀ fid, statsGate ctx = some fid →
        ∃ stats, env.statsResult fid = Except.ok stats) →
      (∃ lb, env.leaderboardResult = Except.ok lb) →
      ((loadInitialData ctx env s).1).error = s.error) := by
  constructor
  · intro fid stats hp hok
    have hne : t.searchFid ≠ "" := by
      intro he
      rw [he, parseIntJS_empty] at hp
      exact Option.noConfusion hp
    simp [handleSearch, hne, hp, hok]
  · intro hstats hlb
    obtain ⟨lb, hl⟩ := hlb
    cases hg : statsGate ctx with
    | none => simp [loadInitialData, hg, hl]
    | some fid =>
      obtain ⟨stats, hs⟩ := hstats fid hg
      simp [loadInitialData, hg, hs, hl]

theorem C4_amended_error_persistence_witness :
    ((loadInitialData (some ctxUser) envAllOk
        { initialFrameState with error := "old error" }).1).error =
      "old error" :=
  (C4_amended_error_persistence (some ctxUser) envAllOk
      { initialFrameState with error := "old error" }
      initialFrameState).2
    (fun _ _ => ⟨sampleStats, rfl⟩) ⟨[], rfl⟩

/-- C5: for every prior state and fetch environment, a non-empty search
input that does not parse as an integer performs no fetch, sets the error
slice to `Invalid FID` and clears the search-result slice. -/
theorem C5_invalid_input (env : FetchEnv) (s : FrameState)
    (hne : s.searchFid ≠ "") (hp : parseIntJS s.searchFid = none) :
    handleSearch env s =
      ({ s with error := "Invalid FID", searchResults := none }, []) := by
  simp [handleSearch, hne, hp]

theorem C5_invalid_input_witness :
    ("abc" : String) ≠ "" ∧ parseIntJS "abc" = none ∧
      handleSearch envAllOk { initialFrameState with searchFid := "abc" } =
        ({ initialFrameState with searchFid := "abc", error := "Invalid FID", searchResults := none }, []) :=
  ⟨by decide, by decide,
    C5_invalid_input envAllOk { initialFrameState with searchFid := "abc" }
      (by decide) (by decide)⟩

/-- C6: for every prior state and fetch environment, a search with the empty
input performs no fetch and returns the state unchanged — a no-op, not an
error. -/
theorem C6_empty_noop (env : FetchEnv) (s : FrameState)
    (he : s.searchFid = "") :
    handleSearch env s = (s, []) := by
  simp [handleSearch, he]

theorem C6_empty_noop_witness :
    handleSearch envAllOk initialFrameState = (initialFrameState, []) :=
  C6_empty_noop envAllOk initialFrameState rfl

/-- C7: when the search input parses as an integer, exactly one stats fetch
for that identifier is performed; on success the search-result slice is
replaced with the returned stats and the error cleared; on failure the error
slice is set to the failure's message and the search-result slice cleared. -/
theorem C7_search_outcomes (env : FetchEnv) (s : FrameState) (fid : Int)
    (hp : parseIntJS s.searchFid = some fid) :
    (handleSearch env s).2 = [FetchCall.stats fid] ∧
    (∀ stats, env.statsResult fid = Except.ok stats →
      handleSearch env s =
        ({ s with searchResults := some stats, error := "" },
          [FetchCall.stats fid])) ∧
    (∀ msg, env.statsResult fid = Except.error msg →
      handleSearch env s =
        ({ s with error := msg, searchResults := none },
          [FetchCall.stats fid])) := by
  have hne : s.searchFid ≠ "" := by
    intro he
    rw [he, parseIntJS_empty] at hp
    exact Option.noConfusion hp
  refine ⟨handleSearch_calls env s fid hp, fun stats hok => ?_,
    fun msg herr => ?_⟩
  · simp [handleSearch, hne, hp, hok]
  · simp [handleSearch, hne, hp, herr]

theorem C7_search_outcomes_witness :
    parseIntJS "7" = some 7 ∧
      handleSearch envAllOk { initialFrameState with searchFid := "7" } =
        ({ initialFrameState with searchFid := "7", searchResults := some sampleStats, error := "" },
          [FetchCall.stats 7]) :=
  ⟨by decide,
    (C7_search_outcomes envAllOk { initialFrameState with searchFid := "7" } 7
        (by decide)).2.1 sampleStats rfl⟩

/-- C8: in every refresh cycle whose gate (`context?.client.added &&
context.actor?.fid`) does not authorize a fid, no own-stats fetch is
performed and the leaderboard is still fetched: the call list is exactly
`[leaderboard]`. -/
theorem C8_gated_stats_fetch (ctx : Option FrameContext) (env : FetchEnv)
    (s : FrameState) (hg : statsGate ctx = none) :
    (loadInitialData ctx env s).2 = [FetchCall.leaderboard] ∧
    ∀ fid, FetchCall.stats fid ∉ (loadInitialData ctx env s).2 := by
  have hcalls : (loadInitialData ctx env s).2 = [FetchCall.leaderboard] := by
    cases hl : env.leaderboardResult with
    | error msg => simp [loadInitialData, hg, hl]
    | ok lb => simp [loadInitialData, hg, hl]
  refine ⟨hcalls, fun fid => ?_⟩
  rw [hcalls]
  simp

theorem C8_gated_stats_fetch_witness :
    statsGate none = none ∧
      (loadInitialData none envAllOk initialFrameState).2 =
        [FetchCall.leaderboard] :=
  ⟨rfl, (C8_gated_stats_fetch none envAllOk initialFrameState rfl).1⟩

/-- C9: the view controller starts in the Stats state, and a view switch
only changes which view is active: it performs no fetch, and any sequence of
switches leaves the own-stats, leaderboard and search-result slices
untouched. -/
theorem C9_view_switching_pure :
    initialFrameState.currentView = ViewState.STATS ∧
    (∀ (v : ViewState) (s : FrameState),
      (switchView v s).1.currentView = v ∧
      (switchView v s).1.userStats = s.userStats ∧
      (switchView v s).1.leaderboard = s.leaderboard ∧
      (switchView v s).1.searchResults = s.searchResults ∧
      (switchView v s).2 = []) ∧
    (∀ (vs : List ViewState) (s : FrameState),
      (switchViews vs s).userStats = s.userStats ∧
      (switchViews vs s).leaderboard = s.leaderboard ∧
      (switchViews vs s).searchResults = s.searchResults) := by
  refine ⟨rfl, fun v s => ⟨rfl, rfl, rfl, rfl, rfl⟩, fun vs => ?_⟩
  induction vs with
  | nil => intro s; exact ⟨rfl, rfl, rfl⟩
  | cons v tl ih => intro s; exact ih { s with currentView := v }

/-- C10: a search input whose leading characters form a non-empty run of
decimal digits followed by a non-digit (such as `12abc` or `12.7`) is not
rejected as an invalid identifier: `parseInt` returns the value of the
leading run — the same value as for the run alone — and `handleSearch`
performs the stats fetch for that identifier. -/
theorem C10_leading_digits (env : FetchEnv) (s : FrameState)
    (ds rest : List Char) (hdata : s.searchFid.data = ds ++ rest)
    (hne : ds ≠ []) (hds : ∀ c ∈ ds, c.isDigit = true)
    (hrest : ∀ c, rest.head? = some c → c.isDigit = false) :
    parseIntJS s.searchFid = some ((digitsToNat ds : Nat) : Int) ∧
    parseIntJS s.searchFid = parseIntJS (String.mk ds) ∧
    (handleSearch env s).2 =
      [FetchCall.stats ((digitsToNat ds : Nat) : Int)] := by
  have h1 : parseIntJS s.searchFid = some ((digitsToNat ds : Nat) : Int) :=
    parseIntJS_digits_leading s.searchFid ds rest hdata hne hds hrest
  have h2 : parseIntJS (String.mk ds) = some ((digitsToNat ds : Nat) : Int) :=
    parseIntJS_digits_leading (String.mk ds) ds [] (by simp) hne hds
      (fun c hc => by simp at hc)
  exact ⟨h1, by rw [h1, h2], handleSearch_calls env s _ h1⟩

theorem C10_leading_digits_witness :
    "12abc".data = ['1', '2'] ++ ['a', 'b', 'c'] ∧
      (handleSearch envAllOk
          { initialFrameState with searchFid := "12abc" }).2 =
        [FetchCall.stats 12] :=
  ⟨rfl,
    (C10_leading_digits envAllOk
        { initialFrameState with searchFid := "12abc" }
        ['1', '2'] ['a', 'b', 'c'] rfl (by decide) (by decide)
        (fun c hc => by
          simp only [List.head?_cons, Option.some.injEq] at hc
          subst hc
          decide)).2.2⟩
